import Mathlib

/-!
Verification of the conformance-testing harness of reprorusted-python-cli.

The development shallowly embeds the two core test modules:

* `tests/test_io_equivalence.rs` — the I/O-equivalence verifier
  (`Example::run_python`, `Example::run_rust`, `Example::assert_equivalence`);
* `examples/example_simple/tests/golden_trace_validation.rs` — the
  golden-trace regression checks (`test_golden_trace_format`,
  `test_performance_baseline`, `test_syscall_count_budget`,
  `test_expected_syscall_patterns`, `test_regression_check`).

Process outputs are modelled as raw byte lists (`List Nat`); the Rust
`String::from_utf8_lossy` conversion performed by both runners is modelled
by the WHATWG maximal-subpart lossy UTF-8 decoder `utf8Lossy`, producing
the sequence of Unicode code points of the resulting Rust `String`.
Numeric columns of the trace summary are modelled as exact rationals
(binary floating-point rounding of `f64` is out of scope; the total-time
values in scope are short decimal literals).
-/

/-- Whether a byte is a UTF-8 continuation byte (0x80..0xBF). -/
def isCont (b : Nat) : Bool := decide (0x80 ≤ b ∧ b ≤ 0xBF)

/-- Valid range for the second byte of a 3-byte sequence, given the lead byte
(E0 requires A0..BF, ED requires 80..9F, otherwise 80..BF). -/
def snd3Ok (lead b1 : Nat) : Bool :=
  if lead == 0xE0 then decide (0xA0 ≤ b1 ∧ b1 ≤ 0xBF)
  else if lead == 0xED then decide (0x80 ≤ b1 ∧ b1 ≤ 0x9F)
  else isCont b1

/-- Valid range for the second byte of a 4-byte sequence, given the lead byte
(F0 requires 90..BF, F4 requires 80..8F, otherwise 80..BF). -/
def snd4Ok (lead b1 : Nat) : Bool :=
  if lead == 0xF0 then decide (0x90 ≤ b1 ∧ b1 ≤ 0xBF)
  else if lead == 0xF4 then decide (0x80 ≤ b1 ∧ b1 ≤ 0x8F)
  else isCont b1

/-- Lossy UTF-8 decoding of a byte sequence into Unicode code points, as done
by Rust `String::from_utf8_lossy`: each maximal subpart of an ill-formed
sequence is replaced by U+FFFD (WHATWG substitution of maximal subparts). -/
def utf8Lossy : List Nat → List Nat
  | [] => []
  | b :: rest =>
    if b ≤ 0x7F then b :: utf8Lossy rest
    else if decide (0xC2 ≤ b ∧ b ≤ 0xDF) then
      match rest with
      | [] => [0xFFFD]
      | b1 :: r1 =>
        if isCont b1 then (0x40 * (b - 0xC0) + (b1 - 0x80)) :: utf8Lossy r1
        else 0xFFFD :: utf8Lossy (b1 :: r1)
    else if decide (0xE0 ≤ b ∧ b ≤ 0xEF) then
      match rest with
      | [] => [0xFFFD]
      | b1 :: r1 =>
        if snd3Ok b b1 then
          match r1 with
          | [] => [0xFFFD]
          | b2 :: r2 =>
            if isCont b2 then
              (0x1000 * (b - 0xE0) + 0x40 * (b1 - 0x80) + (b2 - 0x80)) :: utf8Lossy r2
            else 0xFFFD :: utf8Lossy (b2 :: r2)
        else 0xFFFD :: utf8Lossy (b1 :: r1)
    else if decide (0xF0 ≤ b ∧ b ≤ 0xF4) then
      match rest with
      | [] => [0xFFFD]
      | b1 :: r1 =>
        if snd4Ok b b1 then
          match r1 with
          | [] => [0xFFFD]
          | b2 :: r2 =>
            if isCont b2 then
              match r2 with
              | [] => [0xFFFD]
              | b3 :: r3 =>
                if isCont b3 then
                  (0x40000 * (b - 0xF0) + 0x1000 * (b1 - 0x80) + 0x40 * (b2 - 0x80)
                    + (b3 - 0x80)) :: utf8Lossy r3
                else 0xFFFD :: utf8Lossy (b3 :: r3)
            else 0xFFFD :: utf8Lossy (b2 :: r2)
        else 0xFFFD :: utf8Lossy (b1 :: r1)
    else 0xFFFD :: utf8Lossy rest

/-- The code points of a Lean string literal (used for ASCII test data and
for the patterns searched by the stderr policy). -/
def strCps (s : String) : List Nat := s.toList.map Char.toNat

/-- Substring occurrence test on lists (used to model Rust `str::contains`
with a literal pattern, which is byte-level containment; for the pure-ASCII
patterns in scope this coincides with code-point-level containment). -/
def listInfixB {α : Type} [DecidableEq α] (pat l : List α) : Bool :=
  (List.range (l.length + 1)).any (fun i => decide ((l.drop i).take pat.length = pat))

/-- Substring occurrence test on strings. -/
def strInfixB (pat s : String) : Bool := listInfixB pat.toList s.toList

/-- Termination status of a child process, as exposed by Rust
`std::process::ExitStatus`: either a normal exit with a code, or
termination by a signal (in which case `.code()` is `None`). -/
inductive ExitStatus where
  | exited (code : Int)
  | signaled (sig : Nat)
deriving DecidableEq

/-- Rust `ExitStatus::code`. -/
def ExitStatus.code : ExitStatus → Option Int
  | .exited c => some c
  | .signaled _ => none

/-- Raw output of a completed child process (`std::process::Output`):
termination status plus captured stdout and stderr byte streams. -/
structure ProcOutput where
  status : ExitStatus
  stdout : List Nat
  stderr : List Nat
deriving DecidableEq

/-- The `(i32, String, String)` triple produced by `Example::run_python` and
`Example::run_rust`: exit code, decoded stdout, decoded stderr. -/
structure RunTriple where
  exit_code : Int
  stdout : List Nat
  stderr : List Nat
deriving DecidableEq

/-- The capture step shared by both runners (test_io_equivalence.rs lines
52-56 and 75-79): `status.code().unwrap_or(-1)` plus
`String::from_utf8_lossy` on each stream. -/
def captureResult (o : ProcOutput) : RunTriple :=
  ⟨o.status.code.getD (-1), utf8Lossy o.stdout, utf8Lossy o.stderr⟩

/-- Whether the OS could spawn the child process: `Command::output()` either
fails outright or yields a `ProcOutput`. -/
inductive SpawnOutcome where
  | failedToStart (err : String)
  | completed (out : ProcOutput)

/-- `Example::run_python` (test_io_equivalence.rs lines 45-57): spawn
`python3` on the script; a spawn failure panics via
`.expect("Failed to execute Python script")` (modelled as `Except.error`,
whose message does not mention the script path); otherwise capture the
triple. The script path only feeds the argv of the spawned process. -/
def run_python (python_script : String) (spawn : SpawnOutcome) : Except String RunTriple :=
  match python_script, spawn with
  | _, .failedToStart e => .error ("Failed to execute Python script: " ++ e)
  | _, .completed o => .ok (captureResult o)

/-- The panic message of `Example::run_rust` when the candidate binary is
absent; it interpolates the binary path and the example name. -/
def missingBinaryMsg (rust_binary nm : String) : String :=
  "Rust binary not found: " ++ rust_binary ++ (". Run make compile in examples/" ++ nm ++ "/")

/-- `Example::run_rust` (test_io_equivalence.rs lines 60-80): panic naming
the binary path when the binary does not exist; otherwise spawn it, with a
spawn failure panicking via `.expect("Failed to execute Rust binary")`;
otherwise capture the triple. -/
def run_rust (rust_binary nm : String) (binaryExists : Bool) (spawn : SpawnOutcome) :
    Except String RunTriple :=
  if binaryExists then
    match spawn with
    | .failedToStart e => .error ("Failed to execute Rust binary: " ++ e)
    | .completed o => .ok (captureResult o)
  else
    .error (missingBinaryMsg rust_binary nm)

/-- Whether an `Except` value is a success. -/
def exceptIsOk {ε α : Type} : Except ε α → Bool
  | .ok _ => true
  | .error _ => false

/-- The stderr policy of `Example::assert_equivalence` (lines 101-112): only
when both stderr strings are non-empty, the candidate stderr must contain
the substring "error" or the substring "Error"; otherwise no check. -/
def stderrCheck (py_stderr rs_stderr : List Nat) : Bool :=
  if !py_stderr.isEmpty && !rs_stderr.isEmpty then
    listInfixB (strCps "error") rs_stderr || listInfixB (strCps "Error") rs_stderr
  else true

/-- `Example::assert_equivalence` (lines 83-113) as a pass/fail predicate on
the two captured triples: exit codes equal, stdout strings equal, and the
stderr policy holds. A `false` result corresponds to the first failing
assert aborting the test. -/
def assert_equivalence (py rs : RunTriple) : Bool :=
  (py.exit_code == rs.exit_code) && (py.stdout == rs.stdout)
    && stderrCheck py.stderr rs.stderr

/-- End-to-end verdict of one scenario run: capture both raw process outputs
and compare them with `assert_equivalence`. -/
def equivalencePasses (py rs : ProcOutput) : Bool :=
  assert_equivalence (captureResult py) (captureResult rs)

/-- Outcome of one golden-trace test function: success, a named
assert!/assert_eq!/expect failure with its message, or an unnamed panic
(an unguarded `unwrap` or an out-of-bounds index). -/
inductive Outcome (α : Type) where
  | ok (val : α)
  | fail (msg : String)
  | panicked (msg : String)
deriving DecidableEq

/-- Splits a character list at every separator recognised by `p`, keeping
empty pieces (the splitting primitive underlying `str::split`). -/
def splitByP (p : Char → Bool) : List Char → List (List Char)
  | [] => [[]]
  | c :: t =>
    let r := splitByP p t
    if p c then [] :: r
    else
      match r with
      | h :: rt => (c :: h) :: rt
      | [] => [[c]]

/-- ASCII whitespace recognised by `str::split_whitespace` (Unicode
whitespace beyond ASCII is not modelled; the summary files in scope are
space-separated). -/
def isWsChar (c : Char) : Bool :=
  c == ' ' || c == '\t' || c == '\x0b' || c == '\x0c' || c == '\r' || c == '\n'

/-- Removes one trailing carriage return (the `\r` of a `\r\n` line ending). -/
def stripTrailingCR (l : List Char) : List Char :=
  match l.getLast? with
  | some '\r' => l.dropLast
  | _ => l

/-- Rust `str::lines`: split at `\n`, treating a final line ending as
optional and stripping the `\r` of `\r\n` endings. -/
def rustLinesL (cs : List Char) : List (List Char) :=
  if cs.isEmpty then []
  else
    let parts := splitByP (fun c => c == '\n') cs
    let body := parts.dropLast.map stripTrailingCR
    match parts.getLast? with
    | some [] => body
    | some l => body ++ [l]
    | none => body

/-- Numeric value of a digit list (most significant first). -/
def digitsToNat (ds : List Char) : Nat :=
  ds.foldl (fun a c => 10 * a + (c.toNat - 48)) 0

/-- Whether every character is an ASCII digit. -/
def allDigits (ds : List Char) : Bool := ds.all (fun c => decide ('0' ≤ c ∧ c ≤ '9'))

/-- Mantissa of a decimal literal: digits, optionally followed by a point
and further digits; at least one digit overall. -/
def parseMantissa (cs : List Char) : Option ℚ :=
  let ip := cs.takeWhile (fun c => decide ('0' ≤ c ∧ c ≤ '9'))
  let rest := cs.dropWhile (fun c => decide ('0' ≤ c ∧ c ≤ '9'))
  match rest with
  | [] => if ip.isEmpty then none else some ((digitsToNat ip : ℚ))
  | '.' :: fp =>
    if allDigits fp then
      if ip.isEmpty && fp.isEmpty then none
      else some ((digitsToNat ip : ℚ) + (digitsToNat fp : ℚ) / (10 : ℚ) ^ fp.length)
    else none
  | _ => none

/-- The finite-decimal fragment of Rust `f64::from_str` (optional sign,
mantissa, optional exponent), with the value represented exactly as a
rational; the non-finite literals `inf`/`NaN` and binary rounding are not
modelled. `none` models a parse error. -/
def parseF64 (cs : List Char) : Option ℚ :=
  if cs.isEmpty then none
  else
    let sgn : ℚ := match cs with
      | '-' :: _ => -1
      | _ => 1
    let cs1 : List Char := match cs with
      | '+' :: t => t
      | '-' :: t => t
      | _ => cs
    let mant := cs1.takeWhile (fun c => !(c == 'e' || c == 'E'))
    let expPart := cs1.dropWhile (fun c => !(c == 'e' || c == 'E'))
    match parseMantissa mant with
    | none => none
    | some m =>
      match expPart with
      | [] => some (sgn * m)
      | _ :: etail =>
        let esgn : ℤ := match etail with
          | '-' :: _ => -1
          | _ => 1
        let eds : List Char := match etail with
          | '+' :: t => t
          | '-' :: t => t
          | _ => etail
        if eds.isEmpty || !(allDigits eds) then none
        else some (sgn * m * (10 : ℚ) ^ (esgn * (digitsToNat eds : ℤ)))

/-- Rust `usize::from_str`: optional plus sign then digits (overflow is not
modelled; the call counts in scope are small). -/
def parseUsize (cs : List Char) : Option Nat :=
  let ds : List Char := match cs with
    | '+' :: t => t
    | _ => cs
  if ds.isEmpty || !(allDigits ds) then none else some (digitsToNat ds)

/-- The shared opening of `test_performance_baseline` and
`test_syscall_count_budget` (golden_trace_validation.rs lines 65-72 and
92-98): read the summary file (`.expect("Summary file should exist")`),
take the last line (`lines().last().unwrap()`), split it on whitespace.
`none` as input models a missing or unreadable file. -/
def readLastLineParts (file : Option String) : Outcome (List (List Char)) :=
  match file with
  | none => .fail "Summary file should exist"
  | some s =>
    match (rustLinesL s.toList).getLast? with
    | none => .panicked "Option unwrap on None"
    | some line => .ok ((splitByP isWsChar line).filter (fun t => !t.isEmpty))

/-- Column 1 of the total row as an `f64` (lines 74-76): `parts[1]` panics
out of bounds when the row is too short, and `.parse().unwrap()` panics on
a malformed number. -/
def parseTotalTime (file : Option String) : Outcome ℚ :=
  match readLastLineParts file with
  | .ok parts =>
    match parts[1]? with
    | none => .panicked "index out of bounds"
    | some tstr =>
      match parseF64 tstr with
      | none => .panicked "Result unwrap on Err"
      | some secs => .ok secs
  | .fail m => .fail m
  | .panicked m => .panicked m

/-- Column 3 of the total row as a `usize` (line 101), with the same panic
behaviour as the time column. -/
def parseTotalCalls (file : Option String) : Outcome Nat :=
  match readLastLineParts file with
  | .ok parts =>
    match parts[3]? with
    | none => .panicked "index out of bounds"
    | some cstr =>
      match parseUsize cstr with
      | none => .panicked "Result unwrap on Err"
      | some calls => .ok calls
  | .fail m => .fail m
  | .panicked m => .panicked m

/-- `test_performance_baseline` (lines 63-87): the total time in seconds
times 1000 must be strictly below the 2 ms ceiling. -/
def test_performance_baseline (file : Option String) : Outcome Unit :=
  match parseTotalTime file with
  | .ok secs => if secs * 1000 < 2 then .ok () else .fail "CLI should complete in under 2ms"
  | .fail m => .fail m
  | .panicked m => .panicked m

/-- `test_syscall_count_budget` (lines 89-111): the total call count must be
strictly below the 100-call ceiling. -/
def test_syscall_count_budget (file : Option String) : Outcome Unit :=
  match parseTotalCalls file with
  | .ok calls => if calls < 100 then .ok () else .fail "CLI should use fewer than 100 syscalls"
  | .fail m => .fail m
  | .panicked m => .panicked m

/-- `serde_json::Value`. Numbers are modelled as exact integers (no numeric
field is compared by the tests in scope); objects keep their field order. -/
inductive Json where
  | null
  | bool (b : Bool)
  | num (n : Int)
  | str (s : String)
  | arr (elems : List Json)
  | obj (fields : List (String × Json))

/-- `serde_json` string indexing `value[key]`: the field of an object, and
`Null` for a missing key or a non-object. -/
def Json.index (j : Json) (k : String) : Json :=
  match j with
  | .obj fields => ((fields.find? (fun f => f.fst == k)).map (fun f => f.snd)).getD Json.null
  | _ => Json.null

/-- `Value::as_str`. -/
def Json.asStr : Json → Option String
  | .str s => some s
  | _ => none

/-- `Value::as_array`. -/
def Json.asArr : Json → Option (List Json)
  | .arr xs => some xs
  | _ => none

/-- `Value::is_string`. -/
def Json.isStr (j : Json) : Bool := j.asStr.isSome

/-- `Value::is_array`. -/
def Json.isArray (j : Json) : Bool := j.asArr.isSome

/-- `test_golden_trace_format` (golden_trace_validation.rs lines 37-60),
applied to the parsed trace JSON: the version must equal "0.6.2" (checked
first), the format must equal "renacer-json-v1", `syscalls` must be a
non-empty array, and its first element must expose a string `name` and an
array `args`. `assert_eq!(value, literal)` compares via `as_str`. -/
def test_golden_trace_format (j : Json) : Outcome Unit :=
  if (j.index "version").asStr == some "0.6.2" then
    if (j.index "format").asStr == some "renacer-json-v1" then
      if (j.index "syscalls").isArray then
        match (j.index "syscalls").asArr with
        | some syscalls =>
          if syscalls.isEmpty then .fail "Should have at least one syscall"
          else
            match syscalls.head? with
            | some first =>
              if (first.index "name").isStr then
                if (first.index "args").isArray then .ok ()
                else .fail "Syscall should have args"
              else .fail "Syscall should have name"
            | none => .panicked "index out of bounds"
        | none => .panicked "Option unwrap on None"
      else .fail "Should have syscalls array"
    else .fail "Format should be renacer-json-v1"
  else .fail "Trace version should match"

/-- `test_expected_syscall_patterns` (lines 114-138): `syscalls` is taken
with `.as_array().unwrap()`; the list must contain an event whose name is
exactly "write", and an event whose name is "brk" or "mmap". -/
def test_expected_syscall_patterns (j : Json) : Outcome Unit :=
  match (j.index "syscalls").asArr with
  | none => .panicked "Option unwrap on None"
  | some syscalls =>
    if syscalls.any (fun sc => (sc.index "name").asStr == some "write") then
      if syscalls.any (fun sc =>
          (sc.index "name").asStr == some "brk" || (sc.index "name").asStr == some "mmap") then
        .ok ()
      else .fail "CLI should perform memory allocation"
    else .fail "CLI should perform write syscall for output"

/-- The failure message of the live regression check, interpolating the
golden count, the new count and the reported difference. -/
def regressionFailMsg (golden new diff : Nat) : String :=
  "Syscall count regression detected. Golden: " ++ toString golden
    ++ (", New: " ++ toString new ++ (", Diff: " ++ toString diff))

/-- The comparison step of `test_regression_check` (lines 176-192): the two
syscall counts are cast to `i32`, `diff` is the absolute value of their
difference, and the check fails when `diff` exceeds 10, reporting golden
count, new count and `diff` (`i32` wrap-around is not modelled; the counts
in scope are far below 2^31). -/
def test_regression_check_compare (new_count golden_count : Nat) : Outcome Unit :=
  let diff := ((new_count : ℤ) - (golden_count : ℤ)).natAbs
  if diff ≤ 10 then .ok ()
  else .fail (regressionFailMsg golden_count new_count diff)

/-- Lowercases an ASCII uppercase code point, identity elsewhere. -/
def lowerAscii (n : Nat) : Nat := if 65 ≤ n ∧ n ≤ 90 then n + 32 else n

/-- Follows the claim wording rather than the source: the stderr contains an
"error" token matched case-insensitively, any casing accepted. -/
def spec_containsErrorCI (s : List Nat) : Bool :=
  listInfixB (strCps "error") (s.map lowerAscii)

/-- Follows the claim wording rather than the source: a write-family
allow-list of acceptable output syscall names (more than one exact name). -/
def spec_writeFamily : List String := ["write", "writev", "pwrite64"]

theorem strToList_append (a b : String) : (a ++ b).toList = a.toList ++ b.toList := by
  cases a
  cases b
  rfl

theorem listInfixB_append {α : Type} [DecidableEq α] (pre mid suf : List α) :
    listInfixB mid (pre ++ mid ++ suf) = true := by
  unfold listInfixB
  rw [List.any_eq_true]
  refine ⟨pre.length, List.mem_range.mpr ?_, ?_⟩
  · simp [List.length_append]
    omega
  · rw [List.append_assoc, List.drop_left, List.take_left]
    simp

theorem strInfixB_of_parts (pre mid suf : String) :
    strInfixB mid (pre ++ mid ++ suf) = true := by
  unfold strInfixB
  rw [strToList_append, strToList_append]
  exact listInfixB_append _ _ _

/-- C1 counterexample: the comparator does not distinguish every byte
difference in stdout. The two raw stdout streams `[0xFF]` and `[0xFE]`
differ, yet both lossily decode to U+FFFD, and the full equivalence check
passes on them. -/
theorem C1_counterexample_lossy_stdout_collapse :
    equivalencePasses ⟨.exited 0, [0xFF], []⟩ ⟨.exited 0, [0xFE], []⟩ = true ∧
    ([0xFF] : List Nat) ≠ [0xFE] := by decide

/-- C1 (amended): whenever `assert_equivalence` passes, the exit codes are
exactly equal and the lossily UTF-8 decoded stdout texts are equal (no
trimming or normalization beyond the lossy decoding both runners apply). -/
theorem C1_equivalence_requires_exit_and_decoded_stdout (py rs : ProcOutput)
    (h : equivalencePasses py rs = true) :
    py.status.code.getD (-1) = rs.status.code.getD (-1) ∧
    utf8Lossy py.stdout = utf8Lossy rs.stdout := by
  simp only [equivalencePasses, assert_equivalence, captureResult, Bool.and_eq_true,
    beq_iff_eq] at h
  exact ⟨h.1.1, h.1.2⟩

/-- C1 witness: the amended theorem applied to a concrete passing pair. -/
theorem C1_equivalence_requires_witness :
    (ExitStatus.exited 0).code.getD (-1) = (ExitStatus.exited 0).code.getD (-1) ∧
    utf8Lossy [104] = utf8Lossy [104] :=
  C1_equivalence_requires_exit_and_decoded_stdout ⟨.exited 0, [104], []⟩
    ⟨.exited 0, [104], []⟩ (by decide)

/-- C2 counterexample: a pair in which only the reference produced stderr
("oops", non-empty) while the candidate produced none still passes
`assert_equivalence`; the asymmetry is silently ignored, not reported. -/
theorem C2_counterexample_asymmetric_stderr_ignored :
    equivalencePasses ⟨.exited 0, [104], [111, 111, 112, 115]⟩ ⟨.exited 0, [104], []⟩ = true ∧
    utf8Lossy [111, 111, 112, 115] ≠ [] ∧ utf8Lossy [] = ([] : List Nat) := by decide

/-- C2 (amended): when at least one side's stderr is empty (in particular
when exactly one side produced stderr), no stderr check is applied at all
and the assertion passes exactly when exit codes and stdout agree. -/
theorem C2_one_sided_stderr_no_check (py rs : RunTriple)
    (h : py.stderr = [] ∨ rs.stderr = []) :
    assert_equivalence py rs = true ↔ (py.exit_code = rs.exit_code ∧ py.stdout = rs.stdout) := by
  have hsc : stderrCheck py.stderr rs.stderr = true := by
    rcases h with h | h <;> simp [stderrCheck, h]
  simp [assert_equivalence, hsc]

/-- C2 witness: the amended theorem applied to a concrete asymmetric pair. -/
theorem C2_one_sided_stderr_witness :
    assert_equivalence ⟨0, [104], [111]⟩ ⟨0, [104], []⟩ = true ↔
      ((0 : Int) = 0 ∧ ([104] : List Nat) = [104]) :=
  C2_one_sided_stderr_no_check ⟨0, [104], [111]⟩ ⟨0, [104], []⟩ (Or.inr rfl)

/-- C3 counterexample: with both stderr texts equal to "ERROR" (non-empty on
both sides), the stderr check fails although "ERROR" contains the token
"error" case-insensitively — only the exact casings "error" and "Error"
are accepted. -/
theorem C3_counterexample_uppercase_error_rejected :
    stderrCheck (strCps "ERROR") (strCps "ERROR") = false ∧
    spec_containsErrorCI (strCps "ERROR") = true := by decide

/-- C3 (amended): when both stderr texts are non-empty, the assertion passes
iff exit codes and stdout agree and the candidate stderr contains the exact
substring "error" or the exact substring "Error" (other casings rejected);
when at least one side's stderr is empty, no stderr content check applies. -/
theorem C3_stderr_policy_exact_tokens (py rs : RunTriple) :
    (py.stderr ≠ [] → rs.stderr ≠ [] →
      (assert_equivalence py rs = true ↔
        (py.exit_code = rs.exit_code ∧ py.stdout = rs.stdout ∧
          (listInfixB (strCps "error") rs.stderr = true ∨
           listInfixB (strCps "Error") rs.stderr = true)))) ∧
    ((py.stderr = [] ∨ rs.stderr = []) → stderrCheck py.stderr rs.stderr = true) := by
  constructor
  · intro h1 h2
    have e1 : py.stderr.isEmpty = false := by
      cases hpy : py.stderr
      · exact absurd hpy h1
      · rfl
    have e2 : rs.stderr.isEmpty = false := by
      cases hrs : rs.stderr
      · exact absurd hrs h2
      · rfl
    simp [assert_equivalence, stderrCheck, e1, e2, Bool.and_eq_true, Bool.or_eq_true,
      beq_iff_eq, and_assoc]
  · intro h
    rcases h with h | h <;> simp [stderrCheck, h]

/-- C3 witness: the amended theorem applied to a concrete pair with both
stderr texts non-empty. -/
theorem C3_stderr_policy_witness :
    assert_equivalence ⟨0, [104], [101]⟩ ⟨0, [104], strCps "error"⟩ = true ↔
      ((0 : Int) = 0 ∧ ([104] : List Nat) = [104] ∧
        (listInfixB (strCps "error") (strCps "error") = true ∨
         listInfixB (strCps "Error") (strCps "error") = true)) :=
  (C3_stderr_policy_exact_tokens ⟨0, [104], [101]⟩ ⟨0, [104], strCps "error"⟩).1
    (by decide) (by decide)

/-- C4 counterexample: a reference process terminated by a signal is not
surfaced as a distinct error — the runner fabricates the sentinel exit code
-1 and reports success; moreover the spawn-failure report of the Python
runner is the same string for every script path, so it cannot name the
attempted path. -/
theorem C4_counterexample_signal_not_distinct_error :
    run_python "examples/example_simple/trivial_cli.py"
        (SpawnOutcome.completed ⟨.signaled 9, [], []⟩) = .ok ⟨-1, [], []⟩ ∧
    run_python "a.py" (SpawnOutcome.failedToStart "os error 2") =
      run_python "b.py" (SpawnOutcome.failedToStart "os error 2") ∧
    run_python "a.py" (SpawnOutcome.failedToStart "os error 2") =
      .error "Failed to execute Python script: os error 2" :=
  ⟨rfl, rfl, rfl⟩

/-- C4 (amended): the runners return the real exit code on a normal exit; a
failure to start is a hard failure (an error, never a fabricated ok), with
the attempted path named only by the Rust runner's missing-binary check;
termination by a signal is mapped to the sentinel exit code -1 instead of a
distinct error. -/
theorem C4_runner_exit_and_spawn_behaviour (n : Int) (sig : Nat) (out err : List Nat)
    (p1 p2 nm e : String) (sp : SpawnOutcome) :
    run_python p1 (SpawnOutcome.completed ⟨.exited n, out, err⟩) =
      .ok ⟨n, utf8Lossy out, utf8Lossy err⟩ ∧
    run_python p1 (SpawnOutcome.failedToStart e) = run_python p2 (SpawnOutcome.failedToStart e) ∧
    exceptIsOk (run_python p1 (SpawnOutcome.failedToStart e)) = false ∧
    run_rust p1 nm false sp = .error (missingBinaryMsg p1 nm) ∧
    strInfixB p1 (missingBinaryMsg p1 nm) = true ∧
    run_rust p1 nm true (SpawnOutcome.completed ⟨.signaled sig, out, err⟩) =
      .ok ⟨-1, utf8Lossy out, utf8Lossy err⟩ := by
  refine ⟨rfl, rfl, rfl, rfl, ?_, rfl⟩
  exact strInfixB_of_parts "Rust binary not found: " p1
    (". Run make compile in examples/" ++ nm ++ "/")

/-- C5 counterexample: a trace whose version is "0.0.1" fails the schema
test, yet the statistical checks (time budget, syscall-count budget) are
separate tests on the summary file that still read their data and pass —
schema validation does not precede or gate them. -/
theorem C5_counterexample_stats_independent_of_schema :
    test_golden_trace_format (Json.obj [("version", Json.str "0.0.1"),
        ("format", Json.str "renacer-json-v1"),
        ("syscalls", Json.arr [Json.obj [("name", Json.str "write"), ("args", Json.arr [])]])]) =
      .fail "Trace version should match" ∧
    test_performance_baseline (some "100.00    0.000561           8        65         2 total") =
      .ok () ∧
    test_syscall_count_budget (some "100.00    0.000561           8        65         2 total") =
      .ok () := by
  refine ⟨by decide, ?_, by decide⟩
  have h : test_performance_baseline (some "100.00    0.000561           8        65         2 total") =
      if (1 * ((0 : ℚ) + 561 / (10 : ℚ) ^ 6)) * 1000 < 2 then Outcome.ok ()
      else Outcome.fail "CLI should complete in under 2ms" := rfl
  rw [h, if_pos (by norm_num)]

/-- C5 (amended): a version differing from "0.6.2" fails schema validation
with the version message (the version is checked before the format), and a
correct version with a format differing from "renacer-json-v1" fails with
the format message; the statistical checks are independent test cases on
the separate summary file and are not ordered after schema validation. -/
theorem C5_schema_validation_fails_on_mismatch (j : Json) :
    ((j.index "version").asStr ≠ some "0.6.2" →
      test_golden_trace_format j = .fail "Trace version should match") ∧
    ((j.index "version").asStr = some "0.6.2" →
      (j.index "format").asStr ≠ some "renacer-json-v1" →
      test_golden_trace_format j = .fail "Format should be renacer-json-v1") := by
  constructor
  · intro h
    have hb : ((j.index "version").asStr == some "0.6.2") = false :=
      beq_eq_false_iff_ne.mpr h
    simp [test_golden_trace_format, hb]
  · intro h1 h2
    have hb1 : ((j.index "version").asStr == some "0.6.2") = true := beq_iff_eq.mpr h1
    have hb2 : ((j.index "format").asStr == some "renacer-json-v1") = false :=
      beq_eq_false_iff_ne.mpr h2
    simp [test_golden_trace_format, hb1, hb2]

/-- C5 witness: the amended theorem applied to a concrete incompatible
trace. -/
theorem C5_schema_validation_witness :
    test_golden_trace_format (Json.obj [("version", Json.str "9.9.9")]) =
      .fail "Trace version should match" :=
  (C5_schema_validation_fails_on_mismatch (Json.obj [("version", Json.str "9.9.9")])).1
    (by decide)

/-- C6: for a summary whose total row parses, the performance check passes
iff total seconds times 1000 is strictly below the 2 ms ceiling and fails
iff it is at or above it; the syscall-count check passes iff the total call
count is strictly below the 100-call ceiling and fails iff it is at or
above it. -/
theorem C6_budget_boundaries (file : Option String) (t : ℚ) (calls : Nat) :
    (parseTotalTime file = .ok t →
      ((test_performance_baseline file = .ok () ↔ t * 1000 < 2) ∧
       (test_performance_baseline file = .fail "CLI should complete in under 2ms" ↔
         2 ≤ t * 1000))) ∧
    (parseTotalCalls file = .ok calls →
      ((test_syscall_count_budget file = .ok () ↔ calls < 100) ∧
       (test_syscall_count_budget file = .fail "CLI should use fewer than 100 syscalls" ↔
         100 ≤ calls))) := by
  constructor
  · intro h
    by_cases hc : t * 1000 < 2
    · simp [test_performance_baseline, h, hc, not_le.mpr hc]
    · simp [test_performance_baseline, h, hc, not_lt.mp hc]
  · intro h
    by_cases hc : calls < 100
    · simp [test_syscall_count_budget, h, hc, not_le.mpr hc]
    · simp [test_syscall_count_budget, h, hc, not_lt.mp hc]

/-- C6 witness: the boundary theorem applied to the concrete golden summary
line, whose total row parses to 0.000561 seconds and 65 calls. -/
theorem C6_budget_boundaries_witness :
    ((test_performance_baseline (some "100.00    0.000561           8        65         2 total") =
        .ok () ↔ (1 * ((0 : ℚ) + 561 / (10 : ℚ) ^ 6)) * 1000 < 2) ∧
     (test_performance_baseline (some "100.00    0.000561           8        65         2 total") =
        .fail "CLI should complete in under 2ms" ↔
        2 ≤ (1 * ((0 : ℚ) + 561 / (10 : ℚ) ^ 6)) * 1000)) ∧
    ((test_syscall_count_budget (some "100.00    0.000561           8        65         2 total") =
        .ok () ↔ 65 < 100) ∧
     (test_syscall_count_budget (some "100.00    0.000561           8        65         2 total") =
        .fail "CLI should use fewer than 100 syscalls" ↔ 100 ≤ 65)) :=
  ⟨(C6_budget_boundaries (some "100.00    0.000561           8        65         2 total")
      (1 * ((0 : ℚ) + 561 / (10 : ℚ) ^ 6)) 65).1 rfl,
   (C6_budget_boundaries (some "100.00    0.000561           8        65         2 total")
      (1 * ((0 : ℚ) + 561 / (10 : ℚ) ^ 6)) 65).2 (by decide)⟩

/-- C7 counterexample: a trace containing a "writev" event (a member of the
write family) and a "brk" event fails the output check — the code requires
the single exact name "write", not a write-family allow-list. -/
theorem C7_counterexample_output_check_single_name :
    test_expected_syscall_patterns (Json.obj [("syscalls", Json.arr
        [Json.obj [("name", Json.str "writev"), ("args", Json.arr [])],
         Json.obj [("name", Json.str "brk"), ("args", Json.arr [])]])]) =
      .fail "CLI should perform write syscall for output" ∧
    spec_writeFamily.contains "writev" = true := by decide

/-- C7 (amended): the pattern test passes iff the syscall list contains at
least one event named exactly "write" (a single exact name for the output
category) and at least one event named "brk" or "mmap" (a two-element
allow-list for the allocation category); removing all events of either
category makes the corresponding check fail. -/
theorem C7_pattern_checks (j : Json) (xs : List Json)
    (h : j.index "syscalls" = Json.arr xs) :
    (test_expected_syscall_patterns j = .ok () ↔
      ((∃ sc ∈ xs, (sc.index "name").asStr = some "write") ∧
       (∃ sc ∈ xs, (sc.index "name").asStr = some "brk" ∨
          (sc.index "name").asStr = some "mmap"))) ∧
    ((¬ ∃ sc ∈ xs, (sc.index "name").asStr = some "write") →
      test_expected_syscall_patterns j = .fail "CLI should perform write syscall for output") ∧
    ((∃ sc ∈ xs, (sc.index "name").asStr = some "write") →
      (¬ ∃ sc ∈ xs, (sc.index "name").asStr = some "brk" ∨
          (sc.index "name").asStr = some "mmap") →
      test_expected_syscall_patterns j = .fail "CLI should perform memory allocation") := by
  have e : test_expected_syscall_patterns j =
      (if xs.any (fun sc => (sc.index "name").asStr == some "write") then
        if xs.any (fun sc => (sc.index "name").asStr == some "brk" ||
            (sc.index "name").asStr == some "mmap") then Outcome.ok ()
        else Outcome.fail "CLI should perform memory allocation"
      else Outcome.fail "CLI should perform write syscall for output") := by
    simp [test_expected_syscall_patterns, h, Json.asArr]
  rw [e]
  by_cases h1 : xs.any (fun sc => (sc.index "name").asStr == some "write") = true
  · by_cases h2 : xs.any (fun sc => (sc.index "name").asStr == some "brk" ||
        (sc.index "name").asStr == some "mmap") = true
    · simp only [h1, h2, if_true]
      simp only [List.any_eq_true, Bool.or_eq_true, beq_iff_eq] at h1 h2
      simp [h1, h2]
    · simp only [h1, if_true, if_neg h2]
      simp only [List.any_eq_true, Bool.or_eq_true, beq_iff_eq] at h1 h2
      simp [h1, h2]
  · simp only [if_neg h1]
    simp only [List.any_eq_true, Bool.or_eq_true, beq_iff_eq] at h1
    simp [h1]

/-- C7 witness: the amended theorem applied to a concrete one-event trace. -/
theorem C7_pattern_checks_witness :
    (test_expected_syscall_patterns
        (Json.obj [("syscalls", Json.arr [Json.obj [("name", Json.str "write")]])]) = .ok () ↔
      ((∃ sc ∈ [Json.obj [("name", Json.str "write")]],
          (sc.index "name").asStr = some "write") ∧
       (∃ sc ∈ [Json.obj [("name", Json.str "write")]],
          (sc.index "name").asStr = some "brk" ∨ (sc.index "name").asStr = some "mmap"))) ∧
    ((¬ ∃ sc ∈ [Json.obj [("name", Json.str "write")]],
        (sc.index "name").asStr = some "write") →
      test_expected_syscall_patterns
        (Json.obj [("syscalls", Json.arr [Json.obj [("name", Json.str "write")]])]) =
        .fail "CLI should perform write syscall for output") ∧
    ((∃ sc ∈ [Json.obj [("name", Json.str "write")]],
        (sc.index "name").asStr = some "write") →
      (¬ ∃ sc ∈ [Json.obj [("name", Json.str "write")]],
          (sc.index "name").asStr = some "brk" ∨ (sc.index "name").asStr = some "mmap") →
      test_expected_syscall_patterns
        (Json.obj [("syscalls", Json.arr [Json.obj [("name", Json.str "write")]])]) =
        .fail "CLI should perform memory allocation") :=
  C7_pattern_checks (Json.obj [("syscalls", Json.arr [Json.obj [("name", Json.str "write")]])])
    [Json.obj [("name", Json.str "write")]] rfl

/-- C8 counterexample: with a stored baseline of 20 syscalls and a fresh
capture of 9, the check fails and its report interpolates the absolute
difference 11 — the signed difference -11 appears nowhere in the message. -/
theorem C8_counterexample_absolute_difference_reported :
    test_regression_check_compare 9 20 = .fail (regressionFailMsg 20 9 11) ∧
    strInfixB "-11" (regressionFailMsg 20 9 11) = false := by decide

/-- C8 (amended): the live regression check passes iff the absolute
difference of the two counts is at most 10 (so it fails at 11), and on an
absolute difference of 11 it fails reporting both counts and the absolute
(not signed) difference. -/
theorem C8_regression_tolerance (M N : Nat) :
    (test_regression_check_compare M N = .ok () ↔ (((M : ℤ) - (N : ℤ)).natAbs ≤ 10)) ∧
    (((M : ℤ) - (N : ℤ)).natAbs = 11 →
      test_regression_check_compare M N =
        .fail (regressionFailMsg N M (((M : ℤ) - (N : ℤ)).natAbs))) := by
  constructor
  · by_cases hd : ((M : ℤ) - (N : ℤ)).natAbs ≤ 10 <;>
      simp [test_regression_check_compare, hd]
  · intro h11
    have hgt : ¬ ((M : ℤ) - (N : ℤ)).natAbs ≤ 10 := by omega
    simp [test_regression_check_compare, hgt, h11]

/-- C8 witness: the amended theorem applied at counts 32 and 21 (absolute
difference 11). -/
theorem C8_regression_tolerance_witness :
    (test_regression_check_compare 32 21 = .ok () ↔
      ((((32 : Nat) : ℤ) - ((21 : Nat) : ℤ)).natAbs ≤ 10)) ∧
    test_regression_check_compare 32 21 =
      .fail (regressionFailMsg 21 32 ((((32 : Nat) : ℤ) - ((21 : Nat) : ℤ)).natAbs)) :=
  ⟨(C8_regression_tolerance 32 21).1, (C8_regression_tolerance 32 21).2 (by decide)⟩

/-- C9: the summary parser reports a missing file with the named expect
message, but an empty file, a too-short total row, and a non-numeric time
or call-count column each crash through an unguarded unwrap or an
out-of-bounds index rather than terminating with a distinct named error —
contradicting the defensive-parsing contract. -/
theorem C9_summary_parsing_crashes :
    test_performance_baseline none = .fail "Summary file should exist" ∧
    test_performance_baseline (some "") = .panicked "Option unwrap on None" ∧
    test_performance_baseline (some "total") = .panicked "index out of bounds" ∧
    test_performance_baseline (some "100.00 abc 8 65 2 total") =
      .panicked "Result unwrap on Err" ∧
    test_syscall_count_budget (some "100.00 0.0005 8 xyz 2 total") =
      .panicked "Result unwrap on Err" ∧
    test_syscall_count_budget (some "100.00 0.0005 8") = .panicked "index out of bounds" := by
  decide

/-- C10: both runners map a process terminated without an exit code to the
sentinel -1, so for two runs killed by different signals the exit-code
comparison passes, and the pair passes full equivalence whenever the
stdouts also match (here with empty stderr on both sides). -/
theorem C10_signal_sentinel_equivalence (s1 s2 : Nat) (out : List Nat) (h : s1 ≠ s2) :
    (captureResult ⟨.signaled s1, out, []⟩).exit_code = -1 ∧
    (captureResult ⟨.signaled s2, out, []⟩).exit_code = -1 ∧
    equivalencePasses ⟨.signaled s1, out, []⟩ ⟨.signaled s2, out, []⟩ = true := by
  refine ⟨rfl, rfl, ?_⟩
  simp [equivalencePasses, assert_equivalence, captureResult, stderrCheck, ExitStatus.code,
    utf8Lossy]

/-- C10 witness: the theorem applied to the distinct signals 9 and 11. -/
theorem C10_signal_sentinel_witness :
    (captureResult ⟨.signaled 9, [104], []⟩).exit_code = -1 ∧
    (captureResult ⟨.signaled 11, [104], []⟩).exit_code = -1 ∧
    equivalencePasses ⟨.signaled 9, [104], []⟩ ⟨.signaled 11, [104], []⟩ = true :=
  C10_signal_sentinel_equivalence 9 11 [104] (by decide)
